import Mathlib

/-!
Verification of the HuntLens capability mapper (`src/huntlens/capability_mapper.py`)
and retriever (`src/huntlens/retriever.py`) against their specification.

The Python code is shallowly embedded: strings are Lean `String`s (lists of
characters), the anchored regular expressions of the source are translated into
decidable character-level matchers (over ASCII, which is the alphabet the
patterns constrain), Python's `str.strip` family becomes explicit
`dropWhile`-based trimming, and each f-string template is transcribed verbatim
as a concatenation.  All definitions are executable.
-/

namespace HuntLens

/-- The double-quote character `"`. -/
def dqChar : Char := Char.ofNat 34

/-- The single-quote character. -/
def sqChar : Char := Char.ofNat 39

/-- A one-character string holding a double quote. -/
def dqS : String := ⟨[dqChar]⟩

/-- A one-character string holding a single quote. -/
def sqS : String := ⟨[sqChar]⟩

/-- The ASCII whitespace characters removed by Python's `str.strip()`:
space, tab, newline, vertical tab, form feed, carriage return. -/
def isPySpace (c : Char) : Bool :=
  c == ' ' || c == '\t' || c == '\n' || c == Char.ofNat 11 || c == Char.ofNat 12 || c == '\r'

/-- Remove leading characters satisfying `p` (left half of `str.strip`). -/
def lstripBy (p : Char → Bool) (l : List Char) : List Char := l.dropWhile p

/-- Remove trailing characters satisfying `p` (right half of `str.strip`). -/
def rstripBy (p : Char → Bool) (l : List Char) : List Char :=
  (l.reverse.dropWhile p).reverse

/-- Remove leading and trailing characters satisfying `p`, like `str.strip(chars)`:
it removes EVERY leading/trailing character in the set, not one layer. -/
def stripBy (p : Char → Bool) (l : List Char) : List Char := rstripBy p (lstripBy p l)

/-- Python `s.strip()` (whitespace trimming). -/
def pyStrip (s : String) : String := ⟨stripBy isPySpace s.data⟩

/-- Python `s.strip(c)` for a single-character set `c`. -/
def pyStripChar (c : Char) (s : String) : String := ⟨stripBy (· == c) s.data⟩

/-- Python `s.lower()` (ASCII case folding, which covers the characters the
source's patterns and alias table deal in). -/
def pyLower (s : String) : String := ⟨s.data.map Char.toLower⟩

/-- Python `s.upper()` (ASCII case folding). -/
def pyUpper (s : String) : String := ⟨s.data.map Char.toUpper⟩

/-- ASCII digit, the `\d` class as used by the source's anchored patterns. -/
def isDigitCh (c : Char) : Bool := decide ('0' ≤ c) && decide (c ≤ '9')

/-- The `[A-Fa-f0-9]` class of the hash patterns. -/
def isHexCh (c : Char) : Bool :=
  isDigitCh c || (decide ('a' ≤ c) && decide (c ≤ 'f')) || (decide ('A' ≤ c) && decide (c ≤ 'F'))

/-- The `[A-Za-z]` class. -/
def isAlphaCh (c : Char) : Bool :=
  (decide ('a' ≤ c) && decide (c ≤ 'z')) || (decide ('A' ≤ c) && decide (c ≤ 'Z'))

/-- The `[A-Za-z0-9-]` class of domain labels. -/
def isLabelCh (c : Char) : Bool := isAlphaCh c || isDigitCh c || c == '-'

/-- Split a character list at every `'.'` (like the regex decomposition of the
dotted patterns: the result's parts are exactly the maximal dot-free runs). -/
def splitOnDot : List Char → List (List Char)
  | [] => [[]]
  | c :: rest =>
    if c = '.' then [] :: splitOnDot rest
    else
      match splitOnDot rest with
      | [] => [[c]]
      | g :: gs => (c :: g) :: gs

/-- One octet group of `_IP_RE`: `25[0-5]|2[0-4]\d|1?\d{1,2}`. -/
def isOctet (g : List Char) : Bool :=
  match g with
  | [a] => isDigitCh a
  | [a, b] => isDigitCh a && isDigitCh b
  | [a, b, c] =>
    (a == '2' && b == '5' && (decide ('0' ≤ c) && decide (c ≤ '5'))) ||
    (a == '2' && (decide ('0' ≤ b) && decide (b ≤ '4')) && isDigitCh c) ||
    (a == '1' && isDigitCh b && isDigitCh c)
  | _ => false

/-- Full match of `_IP_RE = ^(octet)(\.(octet)){3}$`: four dot-separated octets. -/
def ipMatch (l : List Char) : Bool :=
  let parts := splitOnDot l
  parts.length == 4 && parts.all isOctet

/-- One domain label with its trailing dot removed: `[A-Za-z0-9-]{1,63}(?<!-)`. -/
def isLabel (g : List Char) : Bool :=
  decide (1 ≤ g.length) && decide (g.length ≤ 63) && g.all isLabelCh &&
    !(g.getLast? == some '-')

/-- The final TLD part of `_DOMAIN_RE`: `[A-Za-z]{2,63}`. -/
def isTld (g : List Char) : Bool :=
  decide (2 ≤ g.length) && decide (g.length ≤ 63) && g.all isAlphaCh

/-- Last element of a non-empty list of parts (`splitOnDot` never returns `[]`). -/
def lastPart : List (List Char) → List Char
  | [] => []
  | [g] => g
  | _ :: g :: gs => lastPart (g :: gs)

/-- Full match of `_DOMAIN_RE =
`^(?=.{1,253}$)(?!-)(?:[A-Za-z0-9-]{1,63}(?<!-)\.)+[A-Za-z]{2,63}$`:
at least one label followed by a dot, then an alphabetic TLD; the whole string
is 1–253 characters and does not start with a hyphen. -/
def domainMatch (l : List Char) : Bool :=
  let parts := splitOnDot l
  (match l.head? with
   | some c => !(c == '-')
   | none => false) &&
  decide (l.length ≤ 253) &&
  decide (2 ≤ parts.length) &&
  parts.dropLast.all isLabel &&
  isTld (lastPart parts)

/-- Full match of the hash patterns `^[A-Fa-f0-9]{n}$` (`n` = 64, 40, 32). -/
def hexMatch (n : Nat) (l : List Char) : Bool :=
  l.length == n && l.all isHexCh

/-- Core of `_MITRE_RE = ^t\d{4}(?:\.\d{3})?$` with `re.IGNORECASE`. -/
def mitreCore (l : List Char) : Bool :=
  match l with
  | t :: d1 :: d2 :: d3 :: d4 :: rest =>
    (t == 't' || t == 'T') && isDigitCh d1 && isDigitCh d2 && isDigitCh d3 && isDigitCh d4 &&
    (match rest with
     | [] => true
     | ['.', e1, e2, e3] => isDigitCh e1 && isDigitCh e2 && isDigitCh e3
     | _ => false)
  | _ => false

/-- `_MITRE_RE.match(s)`: the pattern is anchored on both sides, and Python's
`$` also matches just before a trailing newline, which matters here because
`generate_detection_queries` applies this pattern to the raw artifact. -/
def mitreMatch (s : String) : Bool :=
  mitreCore s.data || (s.data.getLast? == some '\n' && mitreCore s.data.dropLast)

/-- The alias table of `normalize_artifact_type`. -/
def aliasLookup (t : String) : Option String :=
  if t = "ioc" then some "ioc"
  else if t = "indicator" then some "ioc"
  else if t = "process" then some "process"
  else if t = "proc" then some "process"
  else if t = "mitre" then some "mitre"
  else if t = "technique" then some "mitre"
  else if t = "repo" then some "repo"
  else if t = "github" then some "repo"
  else if t = "url" then some "ioc"
  else if t = "hash" then some "ioc"
  else none

/-- `normalize_artifact_type(t)`: trim and lowercase, look the result up in the
alias table, and otherwise return the trimmed label itself — or `"other"` when
it is empty (`aliases.get(t, t or "other")`). -/
def normalizeArtifactType (t : String) : String :=
  let t := pyLower (pyStrip t)
  match aliasLookup t with
  | some v => v
  | none => if t = "" then "other" else t

/-- `classify_ioc(artifact)`: trim, then try the five anchored patterns in the
source's order (ip, domain, sha256, sha1, md5); `None` when none match. -/
def classifyIoc (artifact : String) : Option String :=
  let s := (pyStrip artifact).data
  if ipMatch s = true then some "ip"
  else if domainMatch s = true then some "domain"
  else if hexMatch 64 s = true then some "sha256"
  else if hexMatch 40 s = true then some "sha1"
  else if hexMatch 32 s = true then some "md5"
  else none


/-- The `queries` dictionary: always exactly the three keys splunk/kql/eql. -/
structure Queries where
  splunk : String
  kql : String
  eql : String
deriving DecidableEq

/-- `_queries_for_ioc(artifact, ioc_type)`.  Each f-string template of the
source is transcribed verbatim; string concatenation is grouped so that every
rendered template reads `prefix ++ artifact ++ rest`. -/
def queriesForIoc (artifact iocType : String) : Queries :=
  if iocType = "ip" then
    { splunk := "index=* (dest_ip=\"" ++ artifact ++
        ("\" OR src_ip=\"" ++ artifact ++ ("\") OR (dest=\"" ++ artifact ++
          ("\" OR src=\"" ++ artifact ++ "\")")))
      kql := "union isfuzzy=true\n  (SecurityEvent, DeviceNetworkEvents, CommonSecurityLog)\n  | where RemoteIP == \"" ++ artifact ++
        ("\" or DestinationIp == \"" ++ artifact ++ ("\" or SourceIp == \"" ++ artifact ++ "\" "))
      eql := "network where destination.ip == \"" ++ artifact ++
        ("\" or source.ip == \"" ++ artifact ++ "\" ") }
  else if iocType = "domain" then
    { splunk := "index=* (query=\"" ++ artifact ++
        ("\" OR dest=\"" ++ artifact ++ ("\" OR url=\"*" ++ artifact ++ "*\")"))
      kql := "union isfuzzy=true (DnsEvents, DeviceNetworkEvents)\n  | where Name == \"" ++ artifact ++
        ("\" or Url has \"" ++ artifact ++ "\" ")
      eql := "dns where dns.question.name == \"" ++ artifact ++
        ("\" or stringcontains(url.original, \"" ++ artifact ++ "\") ") }
  else if iocType = "sha256" ∨ iocType = "sha1" ∨ iocType = "md5" then
    { splunk := "index=* (file_hash=\"" ++ artifact ++
        ("\" OR Hash=\"" ++ artifact ++ ("\" OR sha256=\"" ++ artifact ++
          ("\" OR sha1=\"" ++ artifact ++ ("\" OR md5=\"" ++ artifact ++ "\")"))))
      kql := "union isfuzzy=true (DeviceFileEvents, DeviceProcessEvents)\n  | where SHA256 == \"" ++ artifact ++
        ("\" or SHA1 == \"" ++ artifact ++ ("\" or MD5 == \"" ++ artifact ++ "\" "))
      eql := "file where file.hash.sha256 == \"" ++ artifact ++
        ("\" or file.hash.sha1 == \"" ++ artifact ++ ("\" or file.hash.md5 == \"" ++ artifact ++ "\" ")) }
  else
    -- Fallback (the source comments it "should not hit")
    { splunk := "index=* \"" ++ artifact ++ "\""
      kql := "union isfuzzy=true (*) | where tostring(*) has \"" ++ artifact ++ "\" "
      eql := "any where stringcontains(string(all), \"" ++ artifact ++ "\") " }

/-- `safe = name.strip().strip(dquote).strip(squote)` from `_queries_for_process`:
whitespace is trimmed, then EVERY surrounding double quote, then every
surrounding single quote. -/
def processSafe (name : String) : String :=
  pyStripChar sqChar (pyStripChar dqChar (pyStrip name))

/-- `_queries_for_process(name)`. -/
def queriesForProcess (name : String) : Queries :=
  let safe := processSafe name
  { splunk := "index=* sourcetype=XmlWinEventLog:Microsoft-Windows-Sysmon/Operational EventCode=1 Image=\"*\\" ++ safe ++
      ("\" OR OriginalFileName=\"" ++ safe ++ ("\" OR process_name=\"" ++ safe ++ "\" "))
    kql := "DeviceProcessEvents\n| where ProcessName =~ \"" ++ safe ++
      ("\" or FileName =~ \"" ++ safe ++ ("\" or InitiatingProcessFileName =~ \"" ++ safe ++ "\" "))
    eql := "process where process.name == \"" ++ safe ++
      ("\" or process.pe.original_file_name == \"" ++ safe ++ "\" ") }

/-- `_queries_for_mitre(tech)`: upper-case the technique id, then render. -/
def queriesForMitre (tech : String) : Queries :=
  let t := pyUpper tech
  { splunk := "index=* (\"" ++ t ++ ("\" OR \"ATT&CK " ++ t ++ "\")")
    kql := "union isfuzzy=true (*) | where tostring(*) has \"" ++ t ++ "\" "
    eql := "any where stringcontains(string(all), \"" ++ t ++ "\") " }

/-- The keyword-pivot dictionary built inline (identically) in both the `repo`
branch and the final `else` branch of `generate_detection_queries`. -/
def keywordQueries (artifact : String) : Queries :=
  { splunk := "index=* \"" ++ artifact ++ "\""
    kql := "union isfuzzy=true (*) | where tostring(*) has \"" ++ artifact ++ "\""
    eql := "any where stringcontains(string(all), \"" ++ artifact ++ "\")" }

/-- The dictionary returned by `generate_detection_queries`. -/
structure QueryResult where
  artifact : String
  artifact_type : String
  family : String
  queries : Queries
  rationale : String
  severity_hint : String
deriving DecidableEq

/-- `generate_detection_queries(artifact, artifact_type)`: the source computes
`a_type`, dispatches through an if/elif chain setting `queries`, `rationale`,
`sev` and `fam`, and builds one result dictionary; here the dictionary is
inlined into each branch (the `artifact` and `artifact_type` fields are the
same in every branch). -/
def generateDetectionQueries (artifact artifact_type : String) : QueryResult :=
  if normalizeArtifactType artifact_type = "ioc" then
    match classifyIoc artifact with
    | some iocKind =>
      { artifact := artifact
        artifact_type := normalizeArtifactType artifact_type
        family := "ioc"
        queries := queriesForIoc artifact iocKind
        rationale := "Indicator search by " ++ iocKind ++
          "; refine with time range, host scope, and known-good baselines."
        severity_hint :=
          if iocKind = "sha256" ∨ iocKind = "sha1" ∨ iocKind = "md5" then "high" else "medium" }
    | none =>
      -- Treat unknown as domain-like keyword
      { artifact := artifact
        artifact_type := normalizeArtifactType artifact_type
        family := "ioc"
        queries := queriesForIoc artifact "domain"
        rationale := "Free-text IOC; treated as domain-like keyword for broad visibility."
        severity_hint := "medium" }
  else if normalizeArtifactType artifact_type = "process" then
    { artifact := artifact
      artifact_type := normalizeArtifactType artifact_type
      family := "process"
      queries := queriesForProcess artifact
      rationale := "Process name triage; include parent/child correlation and command-line examination."
      severity_hint := "medium" }
  else if normalizeArtifactType artifact_type = "mitre" ∨ mitreMatch artifact = true then
    { artifact := artifact
      artifact_type := normalizeArtifactType artifact_type
      family := "mitre"
      queries := queriesForMitre artifact
      rationale := "Technique pivot; pair with telemetry-specific detections for the sub-technique."
      severity_hint := "medium" }
  else if normalizeArtifactType artifact_type = "repo" then
    { artifact := artifact
      artifact_type := normalizeArtifactType artifact_type
      family := "repo"
      queries := keywordQueries artifact
      rationale := "Repository keyword pivot; combine with code/parser analysis to derive concrete behaviors."
      severity_hint := "low" }
  else
    { artifact := artifact
      artifact_type := normalizeArtifactType artifact_type
      family := "other"
      queries := keywordQueries artifact
      rationale := "Generic keyword pivot; refine by telemetry source and timeframe."
      severity_hint := "low" }

/-- Substring scan: does `needle` occur contiguously in the haystack? -/
def listContains (needle : List Char) : List Char → Bool
  | [] => needle.isEmpty
  | c :: rest => needle.isPrefixOf (c :: rest) || listContains needle rest

/-- `pat in s` on strings. -/
def containsStr (s pat : String) : Bool := listContains pat.data s.data


/-! ### The retriever (`retriever.py`) -/

/-- A corpus document as produced by `load_corpus`: `{id, source, content}`.
The `content` field holds `json.dumps(doc["content"])`, the JSON serialization
that `search` scores against (file loading and JSON encoding happen outside
the component modelled here). -/
structure Doc where
  id : String
  source : String
  content : String
deriving DecidableEq

/-- One entry of `search`'s result list: `{id, source, match_score, content}`. -/
structure SearchResult where
  id : String
  source : String
  match_score : Nat
  content : String
deriving DecidableEq

/-- `len(re.findall(re.escape(q), text))`: the number of non-overlapping
occurrences of the literal `q` in `text`, scanning left to right and resuming
after each match; an empty pattern matches at every position (`len(text) + 1`
times).  `fuel` bounds the recursion by the text length: every step consumes
at least one character. -/
def scanCount (q : List Char) : Nat → List Char → Nat
  | _, [] => if q.isEmpty then 1 else 0
  | 0, _ :: _ => 0
  | fuel + 1, c :: rest =>
    if q.isPrefixOf (c :: rest) then 1 + scanCount q fuel (List.drop (q.length - 1) rest)
    else scanCount q fuel rest

/-- Occurrence count on strings. -/
def countOccurrences (q s : String) : Nat := scanCount q.data s.data.length s.data


/-- Insert into a list kept in non-increasing `match_score` order, after every
element with a score `≥` the new one (the stable placement that Python's
`sorted(..., reverse=True)` gives ties). -/
def insertDesc (x : SearchResult) : List SearchResult → List SearchResult
  | [] => [x]
  | y :: ys => if y.match_score < x.match_score then x :: y :: ys else y :: insertDesc x ys

/-- `sorted(scored, key=lambda x: x["match_score"], reverse=True)`: a stable
sort into non-increasing score order. -/
def sortDesc (l : List SearchResult) : List SearchResult :=
  l.foldl (fun acc x => insertDesc x acc) []

/-- Python's `lst[:n]` for an `int` bound: a non-negative `n` keeps the first
`n` elements, a negative `n` drops the last `|n|`. -/
def pySliceTo (l : List SearchResult) (n : Int) : List SearchResult :=
  if 0 ≤ n then l.take n.toNat else l.take ((l.length : Int) + n).toNat

/-- `search(query, max_results)` over an already-loaded corpus: score each
document by case-insensitive occurrence count in its serialized content, keep
the ones with a positive score, sort by score high → low, and truncate with
`scored[:max_results]`. -/
def search (corpus : List Doc) (query : String) (maxResults : Int) : List SearchResult :=
  let scored := corpus.filterMap (fun doc =>
    let score := countOccurrences (pyLower query) (pyLower doc.content)
    if 0 < score then
      some { id := doc.id, source := doc.source, match_score := score, content := doc.content }
    else none)
  pySliceTo (sortDesc scored) maxResults



/-- A 64-character hex string (all `a`), a concrete SHA-256-shaped artifact. -/
def hex64w : String := ⟨List.replicate 64 'a'⟩

/-- A 40-character hex string (all `b`), a concrete SHA-1-shaped artifact. -/
def hex40w : String := ⟨List.replicate 40 'b'⟩

/-- A process artifact wrapped in two layers of single quotes. -/
def doubleQuoted : String := sqS ++ sqS ++ "cmd.exe" ++ (sqS ++ sqS)

/-- The same artifact with one layer of single quotes left. -/
def singleQuoted : String := sqS ++ "cmd.exe" ++ sqS

/-- A two-document corpus in which both documents match the query `x`. -/
def c10Corpus : List Doc := [⟨"a.json", "golden", "xx"⟩, ⟨"b.json", "golden", "xx"⟩]

/-! ### Behaviour anchors: the concrete cases exercised by the repository tests -/

example : classifyIoc "8.8.8.8" = some "ip" := by decide
example : classifyIoc "evil.example.com" = some "domain" := by decide
example : classifyIoc ⟨List.replicate 64 'a'⟩ = some "sha256" := by decide
example : classifyIoc ⟨List.replicate 40 'b'⟩ = some "sha1" := by decide
example : classifyIoc ⟨List.replicate 32 'c'⟩ = some "md5" := by decide
example : classifyIoc "not-an-ioc" = none := by decide
example : normalizeArtifactType "  ProC " = "process" := by decide
example : normalizeArtifactType "xyz" = "xyz" := by decide
example : normalizeArtifactType "" = "other" := by decide
example : mitreMatch "t1059.001" = true := by decide
example : mitreMatch "T1003" = true := by decide
example : mitreMatch "T10590" = false := by decide

example : containsStr "hello world" "lo w" = true := by decide
example : containsStr "hello world" "low" = false := by decide
example :
    (generateDetectionQueries "10.10.10.10" "ioc").family = "ioc" ∧
    containsStr (generateDetectionQueries "10.10.10.10" "ioc").queries.splunk "10.10.10.10" = true ∧
    containsStr (generateDetectionQueries "10.10.10.10" "ioc").queries.kql "10.10.10.10" = true ∧
    containsStr (generateDetectionQueries "10.10.10.10" "ioc").queries.eql "10.10.10.10" = true := by
  decide
example :
    (generateDetectionQueries "mimikatz.exe" "process").family = "process" ∧
    containsStr (generateDetectionQueries "mimikatz.exe" "process").queries.splunk "mimikatz.exe" = true ∧
    containsStr (generateDetectionQueries "mimikatz.exe" "process").queries.kql "mimikatz.exe" = true ∧
    containsStr (generateDetectionQueries "mimikatz.exe" "process").queries.eql "mimikatz.exe" = true := by
  decide
example :
    (generateDetectionQueries "T1059.001" "mitre").family = "mitre" ∧
    containsStr (generateDetectionQueries "T1059.001" "mitre").queries.splunk "T1059.001" = true ∧
    containsStr (generateDetectionQueries "T1059.001" "mitre").queries.kql "T1059.001" = true ∧
    containsStr (generateDetectionQueries "T1059.001" "mitre").queries.eql "T1059.001" = true := by
  decide
example :
    (generateDetectionQueries "SharpHound" "repo").family = "repo" ∧
    (generateDetectionQueries "SharpHound" "repo").severity_hint = "low" ∧
    containsStr (generateDetectionQueries "SharpHound" "repo").queries.splunk "SharpHound" = true := by
  decide

example : countOccurrences "aa" "aaaa" = 2 := by decide
example : countOccurrences "ab" "abcab" = 2 := by decide
example : countOccurrences "" "abc" = 4 := by decide
example : countOccurrences "x" "abc" = 0 := by decide

example :
    search [⟨"a", "s", "XX"⟩, ⟨"b", "s", "zzz"⟩, ⟨"c", "s", "xxx"⟩] "x" 2 =
      [⟨"c", "s", 3, "xxx"⟩, ⟨"a", "s", 2, "XX"⟩] := by decide
example : search [⟨"a", "s", "xx"⟩, ⟨"b", "s", "xx"⟩] "x" (-1) = [⟨"a", "s", 2, "xx"⟩] := by decide

/-! ### Substring lemmas -/

theorem isPrefixOf_self_append (x s : List Char) : x.isPrefixOf (x ++ s) = true := by
  induction x with
  | nil => simp [List.isPrefixOf]
  | cons c cs ih => simp [List.isPrefixOf, ih]

theorem listContains_mid (a n b : List Char) : listContains n (a ++ (n ++ b)) = true := by
  induction a with
  | nil =>
    rw [List.nil_append]
    rcases hnb : n ++ b with _ | ⟨c, r⟩
    · have hn : n = [] := (List.append_eq_nil.mp hnb).1
      subst hn; simp [listContains]
    · simp only [listContains, Bool.or_eq_true]
      left
      rw [← hnb]
      exact isPrefixOf_self_append n b
  | cons c a ih =>
    rw [List.cons_append, listContains]
    simp [ih]

theorem contains_mid (p x s : String) : containsStr (p ++ x ++ s) x = true := by
  have h : (p ++ x ++ s).data = p.data ++ (x.data ++ s.data) := by
    simp [List.append_assoc]
  unfold containsStr
  rw [h]
  exact listContains_mid _ _ _

/-! ### Each rendered template family contains its rendered artifact -/

theorem queriesForIoc_contains (a k : String) :
    containsStr (queriesForIoc a k).splunk a = true ∧
    containsStr (queriesForIoc a k).kql a = true ∧
    containsStr (queriesForIoc a k).eql a = true := by
  unfold queriesForIoc
  split
  · exact ⟨contains_mid _ _ _, contains_mid _ _ _, contains_mid _ _ _⟩
  · split
    · exact ⟨contains_mid _ _ _, contains_mid _ _ _, contains_mid _ _ _⟩
    · split
      · exact ⟨contains_mid _ _ _, contains_mid _ _ _, contains_mid _ _ _⟩
      · exact ⟨contains_mid _ _ _, contains_mid _ _ _, contains_mid _ _ _⟩

theorem queriesForProcess_contains (a : String) :
    containsStr (queriesForProcess a).splunk (processSafe a) = true ∧
    containsStr (queriesForProcess a).kql (processSafe a) = true ∧
    containsStr (queriesForProcess a).eql (processSafe a) = true := by
  unfold queriesForProcess
  exact ⟨contains_mid _ _ _, contains_mid _ _ _, contains_mid _ _ _⟩

theorem queriesForMitre_contains (a : String) :
    containsStr (queriesForMitre a).splunk (pyUpper a) = true ∧
    containsStr (queriesForMitre a).kql (pyUpper a) = true ∧
    containsStr (queriesForMitre a).eql (pyUpper a) = true := by
  unfold queriesForMitre
  exact ⟨contains_mid _ _ _, contains_mid _ _ _, contains_mid _ _ _⟩

theorem keywordQueries_contains (a : String) :
    containsStr (keywordQueries a).splunk a = true ∧
    containsStr (keywordQueries a).kql a = true ∧
    containsStr (keywordQueries a).eql a = true := by
  unfold keywordQueries
  exact ⟨contains_mid _ _ _, contains_mid _ _ _, contains_mid _ _ _⟩

/-! ### Branch equations for `generate_detection_queries` -/

theorem generate_ioc_some (a t k : String) (h : normalizeArtifactType t = "ioc")
    (hc : classifyIoc a = some k) :
    generateDetectionQueries a t =
      { artifact := a
        artifact_type := normalizeArtifactType t
        family := "ioc"
        queries := queriesForIoc a k
        rationale := "Indicator search by " ++ k ++
          "; refine with time range, host scope, and known-good baselines."
        severity_hint := if k = "sha256" ∨ k = "sha1" ∨ k = "md5" then "high" else "medium" } := by
  unfold generateDetectionQueries
  rw [if_pos h, hc]

theorem generate_ioc_none (a t : String) (h : normalizeArtifactType t = "ioc")
    (hc : classifyIoc a = none) :
    generateDetectionQueries a t =
      { artifact := a
        artifact_type := normalizeArtifactType t
        family := "ioc"
        queries := queriesForIoc a "domain"
        rationale := "Free-text IOC; treated as domain-like keyword for broad visibility."
        severity_hint := "medium" } := by
  unfold generateDetectionQueries
  rw [if_pos h, hc]

theorem generate_process (a t : String) (h : normalizeArtifactType t = "process") :
    generateDetectionQueries a t =
      { artifact := a
        artifact_type := normalizeArtifactType t
        family := "process"
        queries := queriesForProcess a
        rationale := "Process name triage; include parent/child correlation and command-line examination."
        severity_hint := "medium" } := by
  unfold generateDetectionQueries
  rw [h]
  rw [if_neg (by decide : ¬("process" : String) = "ioc"), if_pos rfl]

theorem generate_mitre (a t : String) (h1 : normalizeArtifactType t ≠ "ioc")
    (h2 : normalizeArtifactType t ≠ "process")
    (h3 : normalizeArtifactType t = "mitre" ∨ mitreMatch a = true) :
    generateDetectionQueries a t =
      { artifact := a
        artifact_type := normalizeArtifactType t
        family := "mitre"
        queries := queriesForMitre a
        rationale := "Technique pivot; pair with telemetry-specific detections for the sub-technique."
        severity_hint := "medium" } := by
  unfold generateDetectionQueries
  rw [if_neg h1, if_neg h2, if_pos h3]

theorem generate_repo (a t : String) (h1 : normalizeArtifactType t ≠ "ioc")
    (h2 : normalizeArtifactType t ≠ "process")
    (h3 : ¬(normalizeArtifactType t = "mitre" ∨ mitreMatch a = true))
    (h4 : normalizeArtifactType t = "repo") :
    generateDetectionQueries a t =
      { artifact := a
        artifact_type := normalizeArtifactType t
        family := "repo"
        queries := keywordQueries a
        rationale := "Repository keyword pivot; combine with code/parser analysis to derive concrete behaviors."
        severity_hint := "low" } := by
  unfold generateDetectionQueries
  rw [if_neg h1, if_neg h2, if_neg h3, if_pos h4]

theorem generate_other (a t : String) (h1 : normalizeArtifactType t ≠ "ioc")
    (h2 : normalizeArtifactType t ≠ "process")
    (h3 : ¬(normalizeArtifactType t = "mitre" ∨ mitreMatch a = true))
    (h4 : normalizeArtifactType t ≠ "repo") :
    generateDetectionQueries a t =
      { artifact := a
        artifact_type := normalizeArtifactType t
        family := "other"
        queries := keywordQueries a
        rationale := "Generic keyword pivot; refine by telemetry source and timeframe."
        severity_hint := "low" } := by
  unfold generateDetectionQueries
  rw [if_neg h1, if_neg h2, if_neg h3, if_neg h4]

/-! ### Claim theorems -/

/-- C9: for every artifact string and every declared type string, the
`artifact` field of the result of `generate_detection_queries` is the input
artifact string, unmodified — also for the process family (whose queries embed
the quote-stripped name) and the mitre family (whose queries embed the
upper-cased id). -/
theorem C9_artifact_field_unmodified (a t : String) :
    (generateDetectionQueries a t).artifact = a := by
  by_cases h1 : normalizeArtifactType t = "ioc"
  · cases hc : classifyIoc a with
    | some k => rw [generate_ioc_some a t k h1 hc]
    | none => rw [generate_ioc_none a t h1 hc]
  · by_cases h2 : normalizeArtifactType t = "process"
    · rw [generate_process a t h2]
    · by_cases h3 : normalizeArtifactType t = "mitre" ∨ mitreMatch a = true
      · rw [generate_mitre a t h1 h2 h3]
      · by_cases h4 : normalizeArtifactType t = "repo"
        · rw [generate_repo a t h1 h2 h3 h4]
        · rw [generate_other a t h1 h2 h3 h4]

/-- C8: `generate_detection_queries` is total — in this embedding it is a
Lean function into `QueryResult`, whose `queries` component has exactly the
three fields splunk/kql/eql by construction — and its `severity_hint` is
always one of low/medium/high. -/
theorem C8_total_and_valid (a t : String) :
    (generateDetectionQueries a t).severity_hint ∈ (["low", "medium", "high"] : List String) := by
  by_cases h1 : normalizeArtifactType t = "ioc"
  · cases hc : classifyIoc a with
    | some k =>
      rw [generate_ioc_some a t k h1 hc]
      dsimp only
      split
      · decide
      · decide
    | none =>
      rw [generate_ioc_none a t h1 hc]
      dsimp only
      decide
  · by_cases h2 : normalizeArtifactType t = "process"
    · rw [generate_process a t h2]; dsimp only; decide
    · by_cases h3 : normalizeArtifactType t = "mitre" ∨ mitreMatch a = true
      · rw [generate_mitre a t h1 h2 h3]; dsimp only; decide
      · by_cases h4 : normalizeArtifactType t = "repo"
        · rw [generate_repo a t h1 h2 h3 h4]; dsimp only; decide
        · rw [generate_other a t h1 h2 h3 h4]; dsimp only; decide

/-- C2 (amended): the MITRE-pattern override forces family `mitre` whenever
the resolved label is neither `ioc` nor `process` — the `repo` label is NOT
exempt, because the mitre branch of the if/elif chain precedes the repo
branch. -/
theorem C2_mitre_override (a t : String) (h1 : normalizeArtifactType t ≠ "ioc")
    (h2 : normalizeArtifactType t ≠ "process") (h3 : mitreMatch a = true) :
    (generateDetectionQueries a t).family = "mitre" := by
  rw [generate_mitre a t h1 h2 (Or.inr h3)]

/-- C2 counterexample: with declared type `repo` and the MITRE-pattern
artifact `T1059` the family does not remain `repo` — it becomes `mitre`. -/
theorem C2_counterexample :
    (generateDetectionQueries "T1059" "repo").family = "mitre" ∧
      ("mitre" : String) ≠ "repo" := by
  decide

/-- C2 witness: the override theorem applied at a concrete input. -/
theorem C2_witness : (generateDetectionQueries "T1059.001" "repo").family = "mitre" :=
  C2_mitre_override "T1059.001" "repo" (by decide) (by decide) (by decide)

theorem aliasLookup_mem (u v : String) (h : aliasLookup u = some v) :
    v ∈ (["ioc", "process", "mitre", "repo", "other"] : List String) := by
  unfold aliasLookup at h
  by_cases e1 : u = "ioc"
  · rw [if_pos e1] at h; cases h; decide
  rw [if_neg e1] at h
  by_cases e2 : u = "indicator"
  · rw [if_pos e2] at h; cases h; decide
  rw [if_neg e2] at h
  by_cases e3 : u = "process"
  · rw [if_pos e3] at h; cases h; decide
  rw [if_neg e3] at h
  by_cases e4 : u = "proc"
  · rw [if_pos e4] at h; cases h; decide
  rw [if_neg e4] at h
  by_cases e5 : u = "mitre"
  · rw [if_pos e5] at h; cases h; decide
  rw [if_neg e5] at h
  by_cases e6 : u = "technique"
  · rw [if_pos e6] at h; cases h; decide
  rw [if_neg e6] at h
  by_cases e7 : u = "repo"
  · rw [if_pos e7] at h; cases h; decide
  rw [if_neg e7] at h
  by_cases e8 : u = "github"
  · rw [if_pos e8] at h; cases h; decide
  rw [if_neg e8] at h
  by_cases e9 : u = "url"
  · rw [if_pos e9] at h; cases h; decide
  rw [if_neg e9] at h
  by_cases e10 : u = "hash"
  · rw [if_pos e10] at h; cases h; decide
  rw [if_neg e10] at h
  cases h

/-- C3 (amended): `normalize_artifact_type` returns a canonical label for
alias-table entries and `"other"` for the empty (or all-whitespace) label,
but any other unrecognized label is passed through as its trimmed, lowercased
self (`aliases.get(t, t or "other")` defaults to `t`), so the result is not
always one of the five canonical labels. -/
theorem C3_normalize_passthrough (t : String) :
    (normalizeArtifactType t ∈ (["ioc", "process", "mitre", "repo", "other"] : List String) ∨
      normalizeArtifactType t = pyLower (pyStrip t)) ∧
    (pyLower (pyStrip t) = "" → normalizeArtifactType t = "other") := by
  unfold normalizeArtifactType
  dsimp only
  cases h : aliasLookup (pyLower (pyStrip t)) with
  | none =>
    by_cases hu : pyLower (pyStrip t) = ""
    · rw [if_pos hu]
      exact ⟨Or.inl (by decide), fun _ => rfl⟩
    · rw [if_neg hu]
      exact ⟨Or.inr rfl, fun h' => absurd h' hu⟩
  | some v =>
    refine ⟨Or.inl (aliasLookup_mem _ v h), ?_⟩
    intro hu
    rw [hu] at h
    rw [(by decide : aliasLookup "" = (none : Option String))] at h
    exact Option.noConfusion h

/-- C3 counterexample: the unrecognized label `xyz` maps to itself, not to
`"other"`, and is outside the five canonical labels. -/
theorem C3_counterexample :
    normalizeArtifactType "xyz" = "xyz" ∧
      ("xyz" : String) ∉ (["ioc", "process", "mitre", "repo", "other"] : List String) := by
  decide

/-- C3 witness: the pass-through theorem applied at a concrete input. -/
theorem C3_witness :
    normalizeArtifactType "weird" ∈ (["ioc", "process", "mitre", "repo", "other"] : List String) ∨
      normalizeArtifactType "weird" = pyLower (pyStrip "weird") :=
  (C3_normalize_passthrough "weird").1

/-- C4 (amended): the result's `family` is always one of the five canonical
labels and `artifact_type` is the normalized declared type; `family` equals
`artifact_type` when the latter is `ioc`, `process` or `mitre`, but when it is
anything else `family` is `mitre` whenever the artifact matches the MITRE
pattern (the override is not limited to non-`repo` labels), and otherwise
`repo` for the `repo` label and `other` for every remaining label (including
non-canonical pass-through labels, for which `family ≠ artifact_type`). -/
theorem C4_family_characterization (a t : String) :
    (generateDetectionQueries a t).family ∈
        (["ioc", "process", "mitre", "repo", "other"] : List String) ∧
    (generateDetectionQueries a t).artifact_type = normalizeArtifactType t ∧
    ((normalizeArtifactType t = "ioc" ∨ normalizeArtifactType t = "process" ∨
        normalizeArtifactType t = "mitre") →
      (generateDetectionQueries a t).family = normalizeArtifactType t) ∧
    (normalizeArtifactType t ≠ "ioc" → normalizeArtifactType t ≠ "process" →
      mitreMatch a = true → (generateDetectionQueries a t).family = "mitre") ∧
    (normalizeArtifactType t ≠ "ioc" → normalizeArtifactType t ≠ "process" →
      normalizeArtifactType t ≠ "mitre" → mitreMatch a = false →
      (generateDetectionQueries a t).family =
        (if normalizeArtifactType t = "repo" then "repo" else "other")) := by
  by_cases h1 : normalizeArtifactType t = "ioc"
  · cases hc : classifyIoc a with
    | some k =>
      rw [generate_ioc_some a t k h1 hc]
      refine ⟨(by decide :
          ("ioc" : String) ∈ (["ioc", "process", "mitre", "repo", "other"] : List String)),
        rfl, fun _ => h1.symm, ?_, ?_⟩
      · intro h1' _ _; exact absurd h1 h1'
      · intro h1' _ _ _; exact absurd h1 h1'
    | none =>
      rw [generate_ioc_none a t h1 hc]
      refine ⟨(by decide :
          ("ioc" : String) ∈ (["ioc", "process", "mitre", "repo", "other"] : List String)),
        rfl, fun _ => h1.symm, ?_, ?_⟩
      · intro h1' _ _; exact absurd h1 h1'
      · intro h1' _ _ _; exact absurd h1 h1'
  · by_cases h2 : normalizeArtifactType t = "process"
    · rw [generate_process a t h2]
      refine ⟨(by decide :
          ("process" : String) ∈ (["ioc", "process", "mitre", "repo", "other"] : List String)),
        rfl, fun _ => h2.symm, ?_, ?_⟩
      · intro _ hp _; exact absurd h2 hp
      · intro _ hp _ _; exact absurd h2 hp
    · by_cases h3 : normalizeArtifactType t = "mitre" ∨ mitreMatch a = true
      · rw [generate_mitre a t h1 h2 h3]
        refine ⟨(by decide :
            ("mitre" : String) ∈ (["ioc", "process", "mitre", "repo", "other"] : List String)),
          rfl, ?_, fun _ _ _ => rfl, ?_⟩
        · intro hd
          rcases hd with h | h | h
          · exact absurd h h1
          · exact absurd h h2
          · exact h.symm
        · intro _ _ hm3 hmm4
          rcases h3 with h | h
          · exact absurd h hm3
          · rw [h] at hmm4; cases hmm4
      · have hnm : normalizeArtifactType t ≠ "mitre" := fun h => h3 (Or.inl h)
        have hmmf : mitreMatch a = false := by
          cases hm : mitreMatch a
          · rfl
          · exact absurd (Or.inr hm) h3
        by_cases h4 : normalizeArtifactType t = "repo"
        · rw [generate_repo a t h1 h2 h3 h4]
          refine ⟨(by decide :
              ("repo" : String) ∈ (["ioc", "process", "mitre", "repo", "other"] : List String)),
            rfl, ?_, ?_, ?_⟩
          · intro hd
            rcases hd with h | h | h
            · exact absurd h h1
            · exact absurd h h2
            · exact absurd h hnm
          · intro _ _ hm
            rw [hmmf] at hm; cases hm
          · intro _ _ _ _
            rw [if_pos h4]
        · rw [generate_other a t h1 h2 h3 h4]
          refine ⟨(by decide :
              ("other" : String) ∈ (["ioc", "process", "mitre", "repo", "other"] : List String)),
            rfl, ?_, ?_, ?_⟩
          · intro hd
            rcases hd with h | h | h
            · exact absurd h h1
            · exact absurd h h2
            · exact absurd h hnm
          · intro _ _ hm
            rw [hmmf] at hm; cases hm
          · intro _ _ _ _
            rw [if_neg h4]

/-- C4 counterexample: for artifact `T1059` with an empty declared type the
resolved `artifact_type` is `other` while `family` is `mitre`: the two fields
differ, contradicting the claimed equality. -/
theorem C4_counterexample :
    (generateDetectionQueries "T1059" "").artifact_type = "other" ∧
    (generateDetectionQueries "T1059" "").family = "mitre" ∧
    (generateDetectionQueries "T1059" "").family ≠
      (generateDetectionQueries "T1059" "").artifact_type := by
  decide

/-- C4 witness: the characterization applied at a concrete input where family
and artifact_type do agree. -/
theorem C4_witness :
    (generateDetectionQueries "8.8.8.8" "indicator").family =
      normalizeArtifactType "indicator" :=
  (C4_family_characterization "8.8.8.8" "indicator").2.2.1 (Or.inl (by decide))

/-- C1 (amended): every one of the three query strings contains the rendered
artifact as a substring — the artifact itself for the ioc, repo and other
families, its whitespace/quote-stripped form for the process family, and its
upper-cased form for the mitre family.  The raw artifact is NOT always
contained verbatim for the process and mitre families. -/
theorem C1_queries_contain_rendered_artifact (a t : String) :
    (let r := generateDetectionQueries a t
     let x := if r.family = "process" then processSafe a
              else if r.family = "mitre" then pyUpper a else a
     containsStr r.queries.splunk x = true ∧ containsStr r.queries.kql x = true ∧
       containsStr r.queries.eql x = true) := by
  by_cases h1 : normalizeArtifactType t = "ioc"
  · cases hc : classifyIoc a with
    | some k =>
      rw [generate_ioc_some a t k h1 hc]
      dsimp only
      rw [if_neg (by decide : ¬("ioc" : String) = "process"),
        if_neg (by decide : ¬("ioc" : String) = "mitre")]
      exact queriesForIoc_contains a k
    | none =>
      rw [generate_ioc_none a t h1 hc]
      dsimp only
      rw [if_neg (by decide : ¬("ioc" : String) = "process"),
        if_neg (by decide : ¬("ioc" : String) = "mitre")]
      exact queriesForIoc_contains a "domain"
  · by_cases h2 : normalizeArtifactType t = "process"
    · rw [generate_process a t h2]
      dsimp only
      rw [if_pos rfl]
      exact queriesForProcess_contains a
    · by_cases h3 : normalizeArtifactType t = "mitre" ∨ mitreMatch a = true
      · rw [generate_mitre a t h1 h2 h3]
        dsimp only
        rw [if_neg (by decide : ¬("mitre" : String) = "process"), if_pos rfl]
        exact queriesForMitre_contains a
      · by_cases h4 : normalizeArtifactType t = "repo"
        · rw [generate_repo a t h1 h2 h3 h4]
          dsimp only
          rw [if_neg (by decide : ¬("repo" : String) = "process"),
            if_neg (by decide : ¬("repo" : String) = "mitre")]
          exact keywordQueries_contains a
        · rw [generate_other a t h1 h2 h3 h4]
          dsimp only
          rw [if_neg (by decide : ¬("other" : String) = "process"),
            if_neg (by decide : ¬("other" : String) = "mitre")]
          exact keywordQueries_contains a

/-- C1 counterexample: for the lowercase MITRE id `t1059` with declared type
`mitre`, the splunk query embeds only the upper-cased `T1059` and does not
contain the artifact `t1059` verbatim. -/
theorem C1_counterexample :
    containsStr (generateDetectionQueries "t1059" "mitre").queries.splunk "t1059" = false := by
  decide

/-! ### Character-class facts used for the classifier claims -/

theorem space_chars (c : Char) (h : isPySpace c = true) :
    c = ' ' ∨ c = '\t' ∨ c = '\n' ∨ c = Char.ofNat 11 ∨ c = Char.ofNat 12 ∨ c = '\r' := by
  simp only [isPySpace, Bool.or_eq_true, beq_iff_eq] at h
  tauto

theorem digit_not_space (c : Char) (h : isDigitCh c = true) : isPySpace c = false := by
  cases hs : isPySpace c
  · rfl
  · rcases space_chars c hs with rfl | rfl | rfl | rfl | rfl | rfl <;> exact absurd h (by decide)

theorem hex_not_space (c : Char) (h : isHexCh c = true) : isPySpace c = false := by
  cases hs : isPySpace c
  · rfl
  · rcases space_chars c hs with rfl | rfl | rfl | rfl | rfl | rfl <;> exact absurd h (by decide)

theorem hex_ne_dot (c : Char) (h : isHexCh c = true) : ¬(c = '.') := by
  intro e; subst e; exact absurd h (by decide)

theorem isDigitCh_of_bounds (c u : Char) (h1 : '0' ≤ c) (h2 : c ≤ u) (h3 : u ≤ '9') :
    isDigitCh c = true := by
  simp only [isDigitCh, Bool.and_eq_true, decide_eq_true_eq]
  exact ⟨h1, le_trans h2 h3⟩

theorem octet_digits (g : List Char) (hg : isOctet g = true) : ∀ c ∈ g, isDigitCh c = true := by
  rcases g with _ | ⟨a, _ | ⟨b, _ | ⟨d, _ | ⟨e, rest⟩⟩⟩⟩
  · intro c hc; cases hc
  · intro c hc
    simp only [List.mem_singleton] at hc
    subst hc
    simpa [isOctet] using hg
  · intro c hc
    simp only [isOctet, Bool.and_eq_true] at hg
    simp only [List.mem_cons, List.not_mem_nil, or_false] at hc
    rcases hc with rfl | rfl
    · exact hg.1
    · exact hg.2
  · intro c hc
    simp only [isOctet, Bool.or_eq_true, Bool.and_eq_true, beq_iff_eq,
      decide_eq_true_eq, or_assoc, and_assoc] at hg
    simp only [List.mem_cons, List.not_mem_nil, or_false] at hc
    rcases hg with ⟨rfl, rfl, hd1, hd2⟩ | ⟨rfl, hb1, hb2, hd⟩ | ⟨rfl, hb, hd⟩
    · rcases hc with rfl | rfl | rfl
      · decide
      · decide
      · exact isDigitCh_of_bounds c '5' hd1 hd2 (by decide)
    · rcases hc with rfl | rfl | rfl
      · decide
      · exact isDigitCh_of_bounds c '4' hb1 hb2 (by decide)
      · exact hd
    · rcases hc with rfl | rfl | rfl
      · decide
      · exact hb
      · exact hd
  · intro c hc
    simp [isOctet] at hg

theorem splitOnDot_ne_nil (l : List Char) : splitOnDot l ≠ [] := by
  induction l with
  | nil => simp [splitOnDot]
  | cons c rest ih =>
    simp only [splitOnDot]
    split
    · simp
    · split
      · simp
      · simp

theorem mem_splitOnDot (l : List Char) (c : Char) (hc : c ∈ l) :
    c = '.' ∨ ∃ p, p ∈ splitOnDot l ∧ c ∈ p := by
  induction l with
  | nil => cases hc
  | cons d rest ih =>
    rcases List.mem_cons.mp hc with rfl | hcr
    · by_cases hd : c = '.'
      · exact Or.inl hd
      · right
        cases hs : splitOnDot rest with
        | nil => exact absurd hs (splitOnDot_ne_nil rest)
        | cons g gs =>
          refine ⟨c :: g, ?_, List.mem_cons_self c g⟩
          simp [splitOnDot, hd, hs]
    · rcases ih hcr with hdot | ⟨p, hp, hcp⟩
      · exact Or.inl hdot
      · right
        by_cases hd : d = '.'
        · refine ⟨p, ?_, hcp⟩
          simp only [splitOnDot, if_pos hd, List.mem_cons]
          exact Or.inr hp
        · cases hs : splitOnDot rest with
          | nil => exact absurd hs (splitOnDot_ne_nil rest)
          | cons g gs =>
            rw [hs] at hp
            rcases List.mem_cons.mp hp with rfl | hpgs
            · refine ⟨d :: p, ?_, List.mem_cons_of_mem d hcp⟩
              simp [splitOnDot, hd, hs]
            · refine ⟨p, ?_, hcp⟩
              simp only [splitOnDot, if_neg hd, hs, List.mem_cons]
              exact Or.inr hpgs

theorem ipMatch_not_space (l : List Char) (h : ipMatch l = true) :
    ∀ c ∈ l, isPySpace c = false := by
  intro c hc
  rcases mem_splitOnDot l c hc with rfl | ⟨p, hp, hcp⟩
  · decide
  · simp only [ipMatch, Bool.and_eq_true, List.all_eq_true] at h
    exact digit_not_space c (octet_digits p (h.2 p hp) c hcp)

/-! ### Trimming a string that contains no whitespace is the identity -/

theorem dropWhile_eq_self_of (p : Char → Bool) (l : List Char) (h : ∀ c ∈ l, p c = false) :
    l.dropWhile p = l := by
  cases l with
  | nil => rfl
  | cons c rest =>
    exact List.dropWhile_cons_of_neg (by simp [h c (List.mem_cons_self c rest)])

theorem stripBy_eq_self (p : Char → Bool) (l : List Char) (h : ∀ c ∈ l, p c = false) :
    stripBy p l = l := by
  unfold stripBy rstripBy lstripBy
  rw [dropWhile_eq_self_of p l h,
    dropWhile_eq_self_of p l.reverse (fun c hc => h c (List.mem_reverse.mp hc)),
    List.reverse_reverse]

theorem pyStrip_eq_self (s : String) (h : ∀ c ∈ s.data, isPySpace c = false) :
    pyStrip s = s := by
  obtain ⟨d⟩ := s
  unfold pyStrip
  rw [stripBy_eq_self _ _ h]

/-! ### Hex strings match no dotted pattern -/

theorem splitOnDot_no_dot (l : List Char) (h : ∀ c ∈ l, ¬(c = '.')) : splitOnDot l = [l] := by
  induction l with
  | nil => rfl
  | cons c rest ih =>
    have hc : ¬(c = '.') := h c (List.mem_cons_self c rest)
    have ih' := ih (fun x hx => h x (List.mem_cons_of_mem c hx))
    simp [splitOnDot, hc, ih']

theorem ipMatch_of_hex_false (l : List Char) (h : l.all isHexCh = true) : ipMatch l = false := by
  have hnd : ∀ c ∈ l, ¬(c = '.') := fun c hc => hex_ne_dot c (List.all_eq_true.mp h c hc)
  simp [ipMatch, splitOnDot_no_dot l hnd]

theorem domainMatch_of_hex_false (l : List Char) (h : l.all isHexCh = true) :
    domainMatch l = false := by
  have hnd : ∀ c ∈ l, ¬(c = '.') := fun c hc => hex_ne_dot c (List.all_eq_true.mp h c hc)
  simp [domainMatch, splitOnDot_no_dot l hnd]

theorem hexMatch_len (n : Nat) (l : List Char) (h : hexMatch n l = true) :
    l.length = n ∧ l.all isHexCh = true := by
  simpa [hexMatch, Bool.and_eq_true] using h

/-! ### The classifier on pattern-matching inputs -/

theorem classify_ip_of_match (s : String) (h : ipMatch s.data = true) :
    classifyIoc s = some "ip" := by
  have hid : pyStrip s = s := pyStrip_eq_self s (ipMatch_not_space _ h)
  unfold classifyIoc
  rw [hid, if_pos h]

theorem classify_sha256_of_match (s : String) (h : hexMatch 64 s.data = true) :
    classifyIoc s = some "sha256" := by
  obtain ⟨hlen, hall⟩ := hexMatch_len 64 s.data h
  have hid : pyStrip s = s :=
    pyStrip_eq_self s (fun c hc => hex_not_space c (List.all_eq_true.mp hall c hc))
  unfold classifyIoc
  rw [hid, if_neg (by simp [ipMatch_of_hex_false s.data hall]),
    if_neg (by simp [domainMatch_of_hex_false s.data hall]), if_pos h]

theorem classify_sha1_of_match (s : String) (h : hexMatch 40 s.data = true) :
    classifyIoc s = some "sha1" := by
  obtain ⟨hlen, hall⟩ := hexMatch_len 40 s.data h
  have hid : pyStrip s = s :=
    pyStrip_eq_self s (fun c hc => hex_not_space c (List.all_eq_true.mp hall c hc))
  have h64 : hexMatch 64 s.data = false := by simp [hexMatch, hlen]
  unfold classifyIoc
  rw [hid, if_neg (by simp [ipMatch_of_hex_false s.data hall]),
    if_neg (by simp [domainMatch_of_hex_false s.data hall]), if_neg (by simp [h64]), if_pos h]

theorem classify_md5_of_match (s : String) (h : hexMatch 32 s.data = true) :
    classifyIoc s = some "md5" := by
  obtain ⟨hlen, hall⟩ := hexMatch_len 32 s.data h
  have hid : pyStrip s = s :=
    pyStrip_eq_self s (fun c hc => hex_not_space c (List.all_eq_true.mp hall c hc))
  have h64 : hexMatch 64 s.data = false := by simp [hexMatch, hlen]
  have h40 : hexMatch 40 s.data = false := by simp [hexMatch, hlen]
  unfold classifyIoc
  rw [hid, if_neg (by simp [ipMatch_of_hex_false s.data hall]),
    if_neg (by simp [domainMatch_of_hex_false s.data hall]), if_neg (by simp [h64]),
    if_neg (by simp [h40]), if_pos h]

theorem classify_none_of_no_match (s : String)
    (h1 : ipMatch (pyStrip s).data = false) (h2 : domainMatch (pyStrip s).data = false)
    (h3 : hexMatch 64 (pyStrip s).data = false) (h4 : hexMatch 40 (pyStrip s).data = false)
    (h5 : hexMatch 32 (pyStrip s).data = false) : classifyIoc s = none := by
  unfold classifyIoc
  rw [if_neg (by simp [h1]), if_neg (by simp [h2]), if_neg (by simp [h3]),
    if_neg (by simp [h4]), if_neg (by simp [h5])]

/-- C5: `classify_ioc` returns `ip` on every dotted-quad match, `sha256` /
`sha1` / `md5` on 64- / 40- / 32-character hex strings, and `None` when (after
the contract's whitespace trimming) none of the classifier's five anchored
patterns match; a 64-character and a 40-character hex string classify
differently. -/
theorem C5_classify_patterns (s u : String) :
    (ipMatch s.data = true → classifyIoc s = some "ip") ∧
    (hexMatch 64 s.data = true → classifyIoc s = some "sha256") ∧
    (hexMatch 40 s.data = true → classifyIoc s = some "sha1") ∧
    (hexMatch 32 s.data = true → classifyIoc s = some "md5") ∧
    (ipMatch (pyStrip s).data = false → domainMatch (pyStrip s).data = false →
      hexMatch 64 (pyStrip s).data = false → hexMatch 40 (pyStrip s).data = false →
      hexMatch 32 (pyStrip s).data = false → classifyIoc s = none) ∧
    (hexMatch 64 s.data = true → hexMatch 40 u.data = true →
      classifyIoc s ≠ classifyIoc u) := by
  refine ⟨classify_ip_of_match s, classify_sha256_of_match s, classify_sha1_of_match s,
    classify_md5_of_match s, classify_none_of_no_match s, ?_⟩
  intro h64 h40
  rw [classify_sha256_of_match s h64, classify_sha1_of_match u h40]
  simp

/-- C5 witness: the classifier theorem applied at concrete 64- and
40-character hex strings. -/
theorem C5_witness :
    classifyIoc hex64w = some "sha256" ∧ classifyIoc hex40w = some "sha1" ∧
      classifyIoc hex64w ≠ classifyIoc hex40w :=
  ⟨(C5_classify_patterns hex64w hex40w).2.1 (by decide),
   (C5_classify_patterns hex40w hex64w).2.2.1 (by decide),
   (C5_classify_patterns hex64w hex40w).2.2.2.2.2 (by decide) (by decide)⟩

/-- C6: for a declared type resolving to `ioc`, the severity is `high` exactly
for the hash categories and `medium` otherwise; an unclassified artifact falls
back to the domain-shaped template with family `ioc` and severity `medium`. -/
theorem C6_ioc_severity (a t : String) (h : normalizeArtifactType t = "ioc") :
    (∀ k, classifyIoc a = some k →
      (generateDetectionQueries a t).family = "ioc" ∧
      (generateDetectionQueries a t).severity_hint =
        (if k = "sha256" ∨ k = "sha1" ∨ k = "md5" then "high" else "medium")) ∧
    (classifyIoc a = none →
      (generateDetectionQueries a t).family = "ioc" ∧
      (generateDetectionQueries a t).queries = queriesForIoc a "domain" ∧
      (generateDetectionQueries a t).severity_hint = "medium") := by
  constructor
  · intro k hk
    rw [generate_ioc_some a t k h hk]
    exact ⟨rfl, rfl⟩
  · intro hk
    rw [generate_ioc_none a t h hk]
    exact ⟨rfl, rfl, rfl⟩

/-- C6 witness: a concrete MD5-shaped artifact gets severity `high`. -/
theorem C6_witness :
    (generateDetectionQueries "cccccccccccccccccccccccccccccccc" "ioc").severity_hint =
      "high" := by
  have h :=
    ((C6_ioc_severity "cccccccccccccccccccccccccccccccc" "ioc" (by decide)).1 "md5" (by decide)).2
  rw [h]
  decide

/-! ### Quote-stripping facts for the process family -/

theorem rstripBy_append_sat (p : Char → Bool) (c : Char) (hc : p c = true) (m : List Char) :
    rstripBy p (m ++ [c]) = rstripBy p m := by
  unfold rstripBy
  rw [List.reverse_append, List.reverse_singleton, List.singleton_append,
    List.dropWhile_cons_of_pos hc]

theorem rstripBy_keep_last (p : Char → Bool) (c : Char) (hc : p c = false) (m : List Char) :
    rstripBy p (m ++ [c]) = m ++ [c] := by
  unfold rstripBy
  rw [List.reverse_append, List.reverse_singleton, List.singleton_append,
    List.dropWhile_cons_of_neg (by simp [hc])]
  simp

theorem stripBy_pad (p : Char → Bool) (c : Char) (hc : p c = true) (l : List Char) :
    stripBy p (c :: (l ++ [c])) = stripBy p l := by
  unfold stripBy lstripBy
  rw [List.dropWhile_cons_of_pos hc, List.dropWhile_append]
  by_cases he : (l.dropWhile p).isEmpty
  · rw [if_pos he]
    rw [List.isEmpty_iff.mp he]
    rw [show List.dropWhile p [c] = [] from by simp [hc]]
  · rw [if_neg he]
    exact rstripBy_append_sat p c hc (l.dropWhile p)

theorem stripBy_keep_pad (p : Char → Bool) (c : Char) (hc : p c = false) (l : List Char) :
    stripBy p (c :: (l ++ [c])) = c :: (l ++ [c]) := by
  unfold stripBy lstripBy
  rw [List.dropWhile_cons_of_neg (by simp [hc]), ← List.cons_append,
    rstripBy_keep_last p c hc (c :: l), List.cons_append]

/-- C7 (amended): for the process family the severity is `medium` and the
three templates embed the artifact with surrounding whitespace, then ALL
surrounding double-quote characters, then all surrounding single-quote
characters removed — so wrapping an already-trimmed artifact in one more pair
of double quotes does not change the rendered queries at all (every quote
layer is removed, not just one). -/
theorem C7_process_strip_all_layers (a t : String)
    (h1 : normalizeArtifactType t = "process") (h2 : pyStrip a = a) :
    (generateDetectionQueries a t).severity_hint = "medium" ∧
    (generateDetectionQueries a t).family = "process" ∧
    containsStr (generateDetectionQueries a t).queries.splunk (processSafe a) = true ∧
    containsStr (generateDetectionQueries a t).queries.kql (processSafe a) = true ∧
    containsStr (generateDetectionQueries a t).queries.eql (processSafe a) = true ∧
    (generateDetectionQueries (dqS ++ a ++ dqS) t).queries =
      (generateDetectionQueries a t).queries := by
  rw [generate_process a t h1, generate_process (dqS ++ a ++ dqS) t h1]
  refine ⟨rfl, rfl, (queriesForProcess_contains a).1, (queriesForProcess_contains a).2.1,
    (queriesForProcess_contains a).2.2, ?_⟩
  suffices hs : processSafe (dqS ++ a ++ dqS) = processSafe a by
    show queriesForProcess (dqS ++ a ++ dqS) = queriesForProcess a
    unfold queriesForProcess
    rw [hs]
  have h2' : stripBy isPySpace a.data = a.data := congrArg String.data h2
  have hdata : (dqS ++ a ++ dqS).data = dqChar :: (a.data ++ [dqChar]) := by
    simp [dqS, String.data_append]
  unfold processSafe pyStrip pyStripChar
  rw [hdata, h2']
  show (⟨stripBy _ (⟨stripBy _ (stripBy isPySpace (dqChar :: (a.data ++ [dqChar])))⟩ :
      String).data⟩ : String) = ⟨stripBy _ (⟨stripBy _ a.data⟩ : String).data⟩
  rw [stripBy_keep_pad isPySpace dqChar (by decide) a.data]
  show (⟨stripBy _ (stripBy (· == dqChar) (dqChar :: (a.data ++ [dqChar])))⟩ : String) = _
  rw [stripBy_pad (· == dqChar) dqChar (by decide) a.data]

/-- C7 counterexample: an artifact wrapped in two layers of single quotes has
BOTH layers removed: the rendered eql query does not contain the singly-quoted
name (which one-layer stripping would produce) but does contain the fully
unquoted name. -/
theorem C7_counterexample :
    containsStr (generateDetectionQueries doubleQuoted "process").queries.eql
        singleQuoted = false ∧
    containsStr (generateDetectionQueries doubleQuoted "process").queries.eql
        "cmd.exe" = true := by
  decide

/-- C7 witness: the amended theorem applied at a concrete process name. -/
theorem C7_witness :
    (generateDetectionQueries "cmd.exe" "process").severity_hint = "medium" ∧
    (generateDetectionQueries (dqS ++ "cmd.exe" ++ dqS) "process").queries =
      (generateDetectionQueries "cmd.exe" "process").queries :=
  ⟨(C7_process_strip_all_layers "cmd.exe" "process" (by decide) (by decide)).1,
   (C7_process_strip_all_layers "cmd.exe" "process" (by decide) (by decide)).2.2.2.2.2⟩

/-! ### Sortedness of the retriever's result -/

theorem mem_insertDesc (y x : SearchResult) (l : List SearchResult) :
    y ∈ insertDesc x l ↔ y = x ∨ y ∈ l := by
  induction l with
  | nil => simp [insertDesc]
  | cons z zs ih =>
    simp only [insertDesc]
    split
    · simp [List.mem_cons]
    · simp only [List.mem_cons, ih]
      tauto

theorem mem_foldl_insertDesc (l acc : List SearchResult) (y : SearchResult) :
    y ∈ l.foldl (fun acc x => insertDesc x acc) acc ↔ y ∈ acc ∨ y ∈ l := by
  induction l generalizing acc with
  | nil => simp
  | cons z zs ih =>
    simp only [List.foldl_cons, ih, mem_insertDesc, List.mem_cons]
    tauto

theorem pairwise_insertDesc (x : SearchResult) (l : List SearchResult)
    (h : l.Pairwise (fun a b => b.match_score ≤ a.match_score)) :
    (insertDesc x l).Pairwise (fun a b => b.match_score ≤ a.match_score) := by
  induction l with
  | nil => simp [insertDesc]
  | cons z zs ih =>
    rcases List.pairwise_cons.mp h with ⟨hz, hzs⟩
    simp only [insertDesc]
    split
    · rename_i hlt
      refine List.Pairwise.cons ?_ h
      intro b hb
      rcases List.mem_cons.mp hb with rfl | hbzs
      · exact le_of_lt hlt
      · exact le_trans (hz b hbzs) (le_of_lt hlt)
    · rename_i hnlt
      refine List.Pairwise.cons ?_ (ih hzs)
      intro b hb
      rcases (mem_insertDesc b x zs).mp hb with rfl | hbzs
      · exact Nat.le_of_not_lt hnlt
      · exact hz b hbzs

theorem pairwise_foldl_insertDesc (l acc : List SearchResult)
    (hacc : acc.Pairwise (fun a b => b.match_score ≤ a.match_score)) :
    (l.foldl (fun acc x => insertDesc x acc) acc).Pairwise
      (fun a b => b.match_score ≤ a.match_score) := by
  induction l generalizing acc with
  | nil => exact hacc
  | cons z zs ih => exact ih (insertDesc z acc) (pairwise_insertDesc z acc hacc)

theorem sortDesc_pairwise (l : List SearchResult) :
    (sortDesc l).Pairwise (fun a b => b.match_score ≤ a.match_score) :=
  pairwise_foldl_insertDesc l [] List.Pairwise.nil

theorem mem_sortDesc (y : SearchResult) (l : List SearchResult) :
    y ∈ sortDesc l ↔ y ∈ l := by
  simp [sortDesc, mem_foldl_insertDesc]

/-- C10 (amended): for every corpus, query, and NON-NEGATIVE `max_results`
bound `n`, `search` returns at most `n` results; every returned result comes
from a corpus document and its `match_score` is at least 1 and equal to the
number of case-insensitive occurrences of the query in the document's
serialized content; and the result list is sorted by non-increasing
`match_score`.  (For a negative `n`, Python's `scored[:n]` truncates from the
end instead, and the "at most `n`" bound fails.) -/
theorem C10_search_properties (corpus : List Doc) (query : String) (n : Int) (hn : 0 ≤ n) :
    ((search corpus query n).length : Int) ≤ n ∧
    (∀ r ∈ search corpus query n,
      1 ≤ r.match_score ∧
      ∃ d ∈ corpus, r.id = d.id ∧ r.source = d.source ∧ r.content = d.content ∧
        r.match_score = countOccurrences (pyLower query) (pyLower d.content)) ∧
    (search corpus query n).Pairwise (fun a b => b.match_score ≤ a.match_score) := by
  unfold search
  dsimp only
  refine ⟨?_, ?_, ?_⟩
  · unfold pySliceTo
    rw [if_pos hn]
    calc ((List.take n.toNat _).length : Int) ≤ (n.toNat : Int) := by
          exact_mod_cast List.length_take_le _ _
      _ = n := Int.toNat_of_nonneg hn
  · intro r hr
    have hr1 : r ∈ sortDesc (corpus.filterMap (fun doc =>
        if 0 < countOccurrences (pyLower query) (pyLower doc.content) then
          some { id := doc.id, source := doc.source,
                 match_score := countOccurrences (pyLower query) (pyLower doc.content),
                 content := doc.content }
        else none)) := by
      unfold pySliceTo at hr
      split at hr
      · exact List.take_subset _ _ hr
      · exact List.take_subset _ _ hr
    have hr2 := (mem_sortDesc r _).mp hr1
    obtain ⟨d, hd, hfd⟩ := List.mem_filterMap.mp hr2
    by_cases hscore : 0 < countOccurrences (pyLower query) (pyLower d.content)
    · rw [if_pos hscore] at hfd
      obtain rfl := Option.some.inj hfd
      exact ⟨hscore, d, hd, rfl, rfl, rfl, rfl⟩
    · rw [if_neg hscore] at hfd
      cases hfd
  · unfold pySliceTo
    split
    · exact List.Pairwise.sublist (List.take_sublist _ _) (sortDesc_pairwise _)
    · exact List.Pairwise.sublist (List.take_sublist _ _) (sortDesc_pairwise _)

/-- C10 counterexample: with the negative bound `-1` (a legal Python `int`),
`search` over a two-document corpus returns one result, which is not "at most
`-1`" results; the claim fails for negative `max_results`. -/
theorem C10_counterexample :
    ¬(((search c10Corpus "x" (-1)).length : Int) ≤ -1) := by decide

/-- C10 witness: the search theorem applied at a concrete corpus and bound. -/
theorem C10_witness : ((search c10Corpus "x" 3).length : Int) ≤ 3 :=
  (C10_search_properties c10Corpus "x" 3 (by decide)).1

end HuntLens
